import Mathlib

/-!
Shallow embedding of the gameplay core of `gamejam-2023` (`src/game/mod.rs`).

Numeric model: every Rust `f32` value is embedded as a real number, and the
`f32` arithmetic of the source (`+`, `*`, `min`, `max`, `sqrt`, `acos`, ...)
is embedded as the corresponding exact real operation.  Where the source can
produce an `f32` NaN that then makes every comparison false (glam's
`angle_between` on a zero vector), the embedding models the NaN outcome
explicitly with an `Option`.

Entities are embedded as naturals; ECS queries become lists of the queried
component tuples, with bevy's `Query::get_single` embedded as a function that
succeeds exactly on a one-element list.  A bevy system becomes a function from
its query results to the list of commands/events it emits; systems that can
panic (`Option::unwrap` / `Result::unwrap` / `Commands::entity` on a missing
entity, all of which abort the frame in the source) return `Except Panic`.
-/

open scoped Classical

noncomputable section

namespace Gamejam

/-- Entity id, embedding `bevy_ecs::entity::Entity` (opaque identity). -/
abbrev Entity := Nat

/-! ## glam vector types (external math collaborator, embedded exactly) -/

/-- Embedding of `glam::Vec2` with `f32` components read as reals. -/
@[ext]
structure Vec2 where
  x : ℝ
  y : ℝ

instance : Zero Vec2 := ⟨⟨0, 0⟩⟩

instance : Add Vec2 := ⟨fun a b => ⟨a.x + b.x, a.y + b.y⟩⟩

instance : Sub Vec2 := ⟨fun a b => ⟨a.x - b.x, a.y - b.y⟩⟩

instance : Neg Vec2 := ⟨fun a => ⟨-a.x, -a.y⟩⟩

/-- glam `impl Mul<f32> for Vec2` (componentwise scalar multiply). -/
instance : HMul Vec2 ℝ Vec2 := ⟨fun v s => ⟨v.x * s, v.y * s⟩⟩

/-- glam `impl Div<f32> for Vec2` (componentwise scalar divide). -/
instance : HDiv Vec2 ℝ Vec2 := ⟨fun v s => ⟨v.x / s, v.y / s⟩⟩

/-- glam `impl Add<f32> for Vec2`: the scalar is broadcast to both components. -/
instance : HAdd Vec2 ℝ Vec2 := ⟨fun v s => ⟨v.x + s, v.y + s⟩⟩

/-- Embedding of `glam::Vec3`. -/
@[ext]
structure Vec3 where
  x : ℝ
  y : ℝ
  z : ℝ

instance : Zero Vec3 := ⟨⟨0, 0, 0⟩⟩

instance : Add Vec3 := ⟨fun a b => ⟨a.x + b.x, a.y + b.y, a.z + b.z⟩⟩

instance : Sub Vec3 := ⟨fun a b => ⟨a.x - b.x, a.y - b.y, a.z - b.z⟩⟩

/-- glam `impl Mul<f32> for Vec3`. -/
instance : HMul Vec3 ℝ Vec3 := ⟨fun v s => ⟨v.x * s, v.y * s, v.z * s⟩⟩

/-- glam `impl Add<f32> for Vec3`: the scalar is broadcast to all components. -/
instance : HAdd Vec3 ℝ Vec3 := ⟨fun v s => ⟨v.x + s, v.y + s, v.z + s⟩⟩

/-- glam `Vec2::length_squared`. -/
def Vec2.length_squared (v : Vec2) : ℝ := v.x ^ 2 + v.y ^ 2

/-- glam `Vec2::length`. -/
def Vec2.length (v : Vec2) : ℝ := Real.sqrt v.length_squared

/-- glam `Vec2::dot`. -/
def Vec2.dot (a b : Vec2) : ℝ := a.x * b.x + a.y * b.y

/-- glam `Vec2::perp_dot`. -/
def Vec2.perp_dot (a b : Vec2) : ℝ := a.x * b.y - a.y * b.x

/-- glam `Vec2::normalize_or_zero`: `self * (1/length)` when the reciprocal
length is finite and positive, i.e. (in the real model) when the length is
positive; the zero vector otherwise. -/
def Vec2.normalize_or_zero (v : Vec2) : Vec2 :=
  if 0 < v.length then v * (1 / v.length) else 0

/-- glam `Vec2::from_angle` = `(cos θ, sin θ)`. -/
def Vec2.from_angle (θ : ℝ) : Vec2 := ⟨Real.cos θ, Real.sin θ⟩

/-- glam `Vec2::rotate` = complex multiplication `self * rhs`. -/
def Vec2.rotate (self rhs : Vec2) : Vec2 :=
  ⟨self.x * rhs.x - self.y * rhs.y, self.y * rhs.x + self.x * rhs.y⟩

/-- glam `Vec2::extend`. -/
def Vec2.extend (v : Vec2) (z : ℝ) : Vec3 := ⟨v.x, v.y, z⟩

/-- glam `Vec3::truncate`. -/
def Vec3.truncate (v : Vec3) : Vec2 := ⟨v.x, v.y⟩

/-- glam `Vec3::length`. -/
def Vec3.length (v : Vec3) : ℝ := Real.sqrt (v.x ^ 2 + v.y ^ 2 + v.z ^ 2)

/-- glam `Vec2::angle_between`:
`acos(self.dot(rhs) / sqrt(self.length_squared() * rhs.length_squared()))`,
negated when `perp_dot < 0`.  When either vector is zero the `f32` division
is `0.0 / 0.0 = NaN` and the result is NaN, which makes every later
comparison false; the embedding returns `none` in that case. -/
def Vec2.angle_between (self rhs : Vec2) : Option ℝ :=
  if self.length_squared * rhs.length_squared = 0 then none
  else
    let angle := Real.arccos (self.dot rhs / Real.sqrt (self.length_squared * rhs.length_squared))
    some (if self.perp_dot rhs < 0 then -angle else angle)

/-- Rust `f32::to_radians`: `self * (PI / 180)`. -/
def f32_to_radians (deg : ℝ) : ℝ := deg * (Real.pi / 180)

/-! ## bevy / rapier component types used by the gameplay code -/

/-- Embedding of `bevy Transform`: only the fields the gameplay code reads
(`translation`, `scale`); the rotation is never touched by it. -/
@[ext]
structure Transform where
  translation : Vec3
  scale : Vec3

/-- Embedding of `bevy_rapier2d Velocity` (the angular part is never read). -/
@[ext]
structure Velocity where
  linvel : Vec2

/-- Rapier `Velocity::linear`. -/
def Velocity.linear (v : Vec2) : Velocity := ⟨v⟩

/-- Rapier `Velocity::zero`. -/
def Velocity.zero : Velocity := ⟨0⟩

/-- Embedding of bevy's `Timer` (external collaborator) for the modes used
here: `elapsed` accumulates the ticked deltas and the timer is finished once
the accumulated time reaches `duration`. -/
structure Timer where
  elapsed : ℝ
  duration : ℝ

/-- Timer tick: accumulate the frame delta. -/
def Timer.tick (t : Timer) (delta : ℝ) : Timer := { t with elapsed := t.elapsed + delta }

/-- Timer finished: the accumulated time reached the duration. -/
def Timer.finished (t : Timer) : Prop := t.duration ≤ t.elapsed

/-! ## `src/game/mod.rs` constants and data model -/

/-- `const ORIGINAL_RADIUS: f32 = 32.;` (the spec calls this BASE_RADIUS). -/
def ORIGINAL_RADIUS : ℝ := 32

/-- `struct Temporary { timer: Timer }`. -/
structure Temporary where
  timer : Timer

/-- `enum ObstacleKind`. -/
inductive ObstacleKind where
  | scaleBust (dir : Bool)
  | block
  | ice
  | poison

/-- Embedding of the bevy `Color` constants used by `ObstacleKind::get_color`. -/
inductive Color where
  | gray
  | blue
  | red
  | white
  | green

/-- `ObstacleKind::get_color`. -/
def ObstacleKind.get_color : ObstacleKind → Color
  | .block => .gray
  | .scaleBust dir => if dir then .blue else .red
  | .ice => .white
  | .poison => .green

/-- `struct Obstacle { kind: ObstacleKind }`. -/
structure Obstacle where
  kind : ObstacleKind

/-- `struct BustEffect { target, speed }`. -/
structure BustEffect where
  target : Entity
  speed : ℝ

/-- `struct FrozenEffect { target }`. -/
structure FrozenEffect where
  target : Entity

/-- `struct Destroy { target }`. -/
structure Destroy where
  target : Entity

/-- `struct Scale { speed: f32 }` (the spec's ScaleMechanic). -/
structure Scale where
  speed : ℝ

/-- `Scale::swap`. -/
def Scale.swap (s : Scale) : Scale := ⟨-s.speed⟩

/-- `Scale::apply`:
```
let new_scale = transform.scale * 1. + (self.speed * delta.as_secs_f32());
transform.scale = Vec3::new(
    f32::min(f32::max(new_scale.x, 0.1), 20.),
    f32::min(f32::max(new_scale.y, 0.1), 20.),
    1.,
);
```
(`transform.scale * 1.` multiplies the vector by the scalar `1.`, and the
outer `+` broadcasts the scalar `self.speed * delta` onto each component). -/
def Scale.apply (self : Scale) (delta : ℝ) (transform : Transform) : Transform :=
  let new_scale := transform.scale * (1 : ℝ) + (self.speed * delta)
  { transform with
    scale := Vec3.mk (min (max new_scale.x 0.1) 20) (min (max new_scale.y 0.1) 20) 1 }

/-- `BustEffect::apply` — textually the same update as `Scale::apply`. -/
def BustEffect.apply (self : BustEffect) (delta : ℝ) (transform : Transform) : Transform :=
  let new_scale := transform.scale * (1 : ℝ) + (self.speed * delta)
  { transform with
    scale := Vec3.mk (min (max new_scale.x 0.1) 20) (min (max new_scale.y 0.1) 20) 1 }

/-- Repeated application of the scale mechanic: one `Scale::apply` call per
element of `dts`, in order (the per-frame `apply_scale_system` loop over a
sequence of frame deltas). -/
def scale_apply_seq (s : Scale) (dts : List ℝ) (t : Transform) : Transform :=
  dts.foldl (fun tr dt => s.apply dt tr) t

/-- `calc_speed`: `1. / (transform.scale.truncate().length().sqrt()) * 200.`. -/
def calc_speed (transform : Transform) : ℝ :=
  1 / Real.sqrt transform.scale.truncate.length * 200

/-- `enum Strategy`. -/
inductive Strategy where
  | none
  | follow (max_distance : ℝ)
  | run (max_distance : ℝ)

/-- `Strategy::calc`. -/
def Strategy.calc (self : Strategy) (direction : Vec2) (distance : ℝ) : Vec2 :=
  match self with
  | .none => 0
  | .follow max_distance => if max_distance ≥ distance then direction else 0
  | .run max_distance => if max_distance ≥ distance then -direction else 0

/-- `struct Enemy` — a strategy triple. -/
structure Enemy where
  when_bigger : Strategy
  when_smaller : Strategy
  when_equal : Strategy

/-- `Enemy::lazy_suicide`. -/
def Enemy.lazy_suicide : Enemy :=
  ⟨Strategy.none, Strategy.follow 128, Strategy.none⟩

/-- `Enemy::lazy_smart_aggressive`. -/
def Enemy.lazy_smart_aggressive : Enemy :=
  ⟨Strategy.follow 128, Strategy.run 128, Strategy.none⟩

/-- `Enemy::lazy_aggressive`. -/
def Enemy.lazy_aggressive : Enemy :=
  ⟨Strategy.follow 128, Strategy.none, Strategy.none⟩

/-- `Enemy::lazy_suicide_aggressive`. -/
def Enemy.lazy_suicide_aggressive : Enemy :=
  ⟨Strategy.follow 128, Strategy.follow 128, Strategy.none⟩

/-- `Enemy::tick` — the pure per-frame behavior function.  The tuple
arguments mirror the source signature `(&Transform, &Velocity)`. -/
def Enemy.tick (self : Enemy) (enemy : Transform × Velocity)
    (player : Transform × Velocity) : Velocity :=
  let enemy_length := enemy.1.scale.length
  let player_length := player.1.scale.length
  let player_radius := player.1.scale.length * ORIGINAL_RADIUS
  let diff := player.1.translation.truncate - enemy.1.translation.truncate
  let direction := diff.normalize_or_zero
  let distance := max (diff.length - player_radius) 0
  let enemy_direction :=
    if enemy_length > player_length then
      self.when_bigger.calc direction distance
    else if player_length > enemy_length then
      self.when_smaller.calc direction distance
    else
      self.when_equal.calc direction distance
  Velocity.linear (enemy_direction * calc_speed enemy.1)

/-! ## Commands and events emitted by the gameplay systems

A bevy system in the source mutates the world only through `Commands` and
`EventWriter`; the embedding makes each system return the list of commands /
events it would enqueue this frame. -/

/-- Deferred world mutation or event, as enqueued by the source systems. -/
inductive Command where
  | spawnBust (target : Entity) (speed : ℝ) (timerSecs : ℝ)
  | spawnFrozen (target : Entity) (timerSecs : ℝ)
  | insertZeroVelocity (target : Entity)
  | spawnDestroy (target : Entity)
  | despawn (e : Entity)
  | despawnRecursive (e : Entity)
  | sendGameOver
  | insertVelocity (e : Entity) (v : Velocity)

/-- `Obstacle::create_effect`: the commands enqueued when the player absorbs
an obstacle of this kind (`target` is the player entity, `scale` the player's
`Scale` component). -/
def Obstacle.create_effect (self : Obstacle) (target : Entity) (scale : Scale) :
    List Command :=
  match self.kind with
  | .scaleBust dir =>
      [Command.spawnBust target (scale.speed * if dir then 2 else -3) 0.5]
  | .block => []
  | .ice => [Command.spawnFrozen target 0.5, Command.insertZeroVelocity target]
  | .poison => [Command.spawnDestroy target]

/-- Failure mode of a system that can abort the frame: bevy/rust panics. -/
inductive Panic where
  | unwrapNone
  | getSingleUnwrap
  | missingEntity (e : Entity)

/-- Embedding of bevy `Query::get_single`: `Ok` exactly when the query
matches a single entity. -/
def get_single {α : Type} : List α → Except Panic α
  | [x] => .ok x
  | _ => .error .getSingleUnwrap

/-! ## Collision resolution (`hit_obstacle_system`) -/

/-- Rapier contact manifold view: only `normal()` is read. -/
structure ContactManifoldView where
  normal : Vec2

/-- Rapier tracked-contact view: only `dist()` is read (negative when the
shapes penetrate). -/
structure ContactPointView where
  dist : ℝ

/-- Rapier `ContactPairView`: the gameplay code only calls
`find_deepest_contact()`, whose result (an optional
`(manifold, contact)` pair) is stored here. -/
structure ContactPairView where
  find_deepest_contact : Option (ContactManifoldView × ContactPointView)

/-- The part of `RapierContext` consumed by the gameplay code: the
`contact_pair` lookup. -/
structure RapierContext where
  contact_pair : Entity → Entity → Option ContactPairView

/-- Loop body of `hit_obstacle_system` for one (player, colliding obstacle)
pair:
```
let intersection = rapier_context.contact_pair(colliding_entity, player_entity);
let contact_pair_view = intersection.unwrap();
let deepest_contact = contact_pair_view.find_deepest_contact().unwrap();
let penetration = deepest_contact.1.dist();
if player_length >= obstacle_length {
    if penetration.abs() >= ORIGINAL_RADIUS * 2. * obstacle_length { absorb }
} else {
    if penetration.abs() >= ORIGINAL_RADIUS * 2. * player_length { game over }
}
```
The two `unwrap()` calls panic when the geometry query comes back empty. -/
def hit_obstacle_pair (rapier_context : RapierContext) (player_entity : Entity)
    (scale : Scale) (player_transform : Transform) (colliding_entity : Entity)
    (obstacle : Obstacle) (obstacle_transform : Transform) :
    Except Panic (List Command) :=
  let player_length := player_transform.scale.x
  let obstacle_length := obstacle_transform.scale.x
  match rapier_context.contact_pair colliding_entity player_entity with
  | Option.none => .error .unwrapNone
  | some contact_pair_view =>
    match contact_pair_view.find_deepest_contact with
    | Option.none => .error .unwrapNone
    | some deepest_contact =>
      let penetration := deepest_contact.2.dist
      if player_length ≥ obstacle_length then
        if |penetration| ≥ ORIGINAL_RADIUS * 2 * obstacle_length then
          .ok (obstacle.create_effect player_entity scale ++
                [Command.despawnRecursive colliding_entity])
        else .ok []
      else
        if |penetration| ≥ ORIGINAL_RADIUS * 2 * player_length then
          .ok [Command.sendGameOver]
        else .ok []

/-! ## Obstacle factory -/

/-- One loop iteration of `ObstacleFactoryComponent::create` draws three
values from the factory's RNG, in this order: `random.f32()` (in `[0,1)`),
`random.f32_normalized()` (in `[-1,1]`), `random.u8(0..=4)`. -/
structure RngDraw where
  f32 : ℝ
  f32_normalized : ℝ
  u8 : ℕ

/-- `struct SpawnObstacleEvent`. -/
structure SpawnObstacleEvent where
  color : Color
  position : Vec3
  radius : ℝ
  scale : ℝ
  kind : ObstacleKind

/-- Kind selection in `ObstacleFactoryComponent::create`
(`match random.u8(0..=4) { 0 => .., 1 => .., 2 => .., 3 => .., 4 => .., _ => Block }`). -/
def obstacle_kind_of_u8 (b : ℕ) : ObstacleKind :=
  match b with
  | 0 => .scaleBust true
  | 1 => .scaleBust false
  | 2 => .block
  | 3 => .ice
  | 4 => .poison
  | _ => .block

/-- `ObstacleFactoryComponent::create`.  `just_finished` is the state of the
factory timer after this frame's tick; `d0`, `d1` are the RNG draws of the
two loop iterations (`for _ in 0..2`):
```
if !self.timer.just_finished() { return; }
let camera_direction = camera_velocity.linvel.normalize_or_zero();
let obstacle_direction = camera_direction.rotate(Vec2::from_angle(PI / 2.));
let obstacle_middle =
    camera_transform.translation.truncate() + (camera_direction * 1080. / 2. + 64.);
for _ in 0..2 {
    let scale = 0.75 + random.f32() * 0.50;
    let position =
        obstacle_middle + obstacle_direction * random.f32_normalized() * 720. / 2.;
    ...
}
```
Note `camera_direction * 1080. / 2. + 64.` parses as
`((camera_direction * 1080.) / 2.) + 64.`, whose final `+ 64.` broadcasts the
scalar onto both components. -/
def ObstacleFactoryComponent.create (just_finished : Bool)
    (camera_info : Transform × Velocity) (d0 d1 : RngDraw) :
    List SpawnObstacleEvent :=
  if !just_finished then []
  else
    let camera_transform := camera_info.1
    let camera_velocity := camera_info.2
    let camera_direction := camera_velocity.linvel.normalize_or_zero
    let obstacle_direction := camera_direction.rotate (Vec2.from_angle (Real.pi / 2))
    let obstacle_middle :=
      camera_transform.translation.truncate + (camera_direction * (1080 : ℝ) / (2 : ℝ) + (64 : ℝ))
    [d0, d1].map fun d =>
      let scale := 0.75 + d.f32 * 0.50
      let position := obstacle_middle + obstacle_direction * d.f32_normalized * (720 : ℝ) / (2 : ℝ)
      let kind := obstacle_kind_of_u8 d.u8
      { color := kind.get_color
        position := position.extend 0
        radius := ORIGINAL_RADIUS
        scale := scale
        kind := kind }

/-- Factory entity as seen by `obstacle_factory_system`: the timer state
after this frame's `factory.tick(time.delta())` together with this frame's
pending RNG draws. -/
structure FactoryEntry where
  just_finished : Bool
  d0 : RngDraw
  d1 : RngDraw

/-- `obstacle_factory_system`: both singleton lookups use
`if let Ok(..) = query.get_single()`, so a missing/ambiguous camera or player
makes the system silently do nothing (in particular the factories are not
even ticked). -/
def obstacle_factory_system (cameras : List (Transform × Velocity))
    (players : List Transform) (factories : List FactoryEntry) :
    Except Panic (List SpawnObstacleEvent) :=
  match get_single cameras with
  | .error _ => .ok []
  | .ok camera_info =>
    match get_single players with
    | .error _ => .ok []
    | .ok _player_info =>
      .ok (factories.flatMap fun f =>
        ObstacleFactoryComponent.create f.just_finished camera_info f.d0 f.d1)

/-- `enemy_system`: the player lookup is
`player_query.get_single().unwrap()`, which panics unless exactly one player
entity exists. -/
def enemy_system (enemies : List (Entity × Enemy × Transform))
    (players : List (Entity × Transform)) : Except Panic (List Command) :=
  match get_single players with
  | .error e => .error e
  | .ok player =>
    .ok (enemies.map fun it =>
      Command.insertVelocity it.1
        (it.2.1.tick (it.2.2, Velocity.zero) (player.2, Velocity.zero)))

/-- `despawn_out_of_view`: the camera lookup is
`camera_query.get_single().unwrap()`, which panics unless exactly one camera
exists.  Each queried entity is `(id, view_visibility, transform)`. -/
def despawn_out_of_view (cameras : List (Transform × Velocity))
    (players : List Entity) (entities : List (Entity × Bool × Transform)) :
    Except Panic (List Command) :=
  match get_single cameras with
  | .error e => .error e
  | .ok camera_info =>
    let camera_position := camera_info.1.translation
    let camera_dir := camera_info.2.linvel.normalize_or_zero
    .ok (entities.flatMap fun e =>
      if e.2.1 then []
      else
        match ((e.2.2.translation - camera_position).truncate.normalize_or_zero).angle_between
            camera_dir with
        | Option.none => []
        | some a =>
          if |a| ≥ f32_to_radians 90 ∧ |a| ≤ f32_to_radians 270 then
            if e.1 ∈ players then [Command.sendGameOver]
            else [Command.despawnRecursive e.1]
          else [])

/-! ## Effect subsystem -/

/-- Loop body of `bust_effect_system` for one effect:
`if let Ok(mut transform) = target_query.get_mut(effect.target) { effect.apply(..) }` —
every live entity whose id matches the target gets the bust applied, a
dangling target is silently skipped. -/
def bust_apply_one (delta : ℝ) (effect : BustEffect)
    (targets : List (Entity × Transform)) : List (Entity × Transform) :=
  targets.map fun p => if p.1 = effect.target then (p.1, effect.apply delta p.2) else p

/-- `bust_effect_system`: apply every live `BustEffect` to its target's
transform (dangling targets are skipped by the `if let Ok`). -/
def bust_effect_system (delta : ℝ) (effects : List BustEffect)
    (targets : List (Entity × Transform)) : List (Entity × Transform) :=
  effects.foldl (fun ts e => bust_apply_one delta e ts) targets

/-- `temporary_despawn_system`: tick every `Temporary` timer and enqueue a
recursive despawn for each entity whose timer has finished.  Returns the
updated timers and the enqueued commands. -/
def temporary_despawn_system (delta : ℝ) (temporaries : List (Entity × Temporary)) :
    List (Entity × Temporary) × List Command :=
  (temporaries.map fun p => (p.1, ⟨p.2.timer.tick delta⟩),
   temporaries.flatMap fun p =>
     if (p.2.timer.tick delta).finished then [Command.despawnRecursive p.1] else [])

/-- Loop body of `destroy_system` for one `Destroy` effect entity:
```
if let Ok(player) = is_player.get(target) { events.send(GameEvent::GameOver); }
else { commands.entity(target).despawn(); }
commands.entity(destroy_entity).despawn();
```
`players` is the set of live entities with a `Player` component and `alive`
the set of all live entities; bevy's `Commands::entity` panics when handed an
entity that no longer exists, so a dangling `target` aborts the frame. -/
def destroy_step (players alive : List Entity) (destroy_entity : Entity)
    (destroy : Destroy) : Except Panic (List Command) :=
  let target := destroy.target
  if target ∈ players then
    .ok [Command.sendGameOver, Command.despawn destroy_entity]
  else if target ∈ alive then
    .ok [Command.despawn target, Command.despawn destroy_entity]
  else
    .error (Panic.missingEntity target)

/-- `destroy_system`: run `destroy_step` over every live `Destroy` entity,
aborting the frame on the first panic. -/
def destroy_system (destroys : List (Entity × Destroy)) (players alive : List Entity) :
    Except Panic (List Command) :=
  destroys.foldlM (fun acc d => (destroy_step players alive d.1 d.2).map (acc ++ ·)) []

/-! ## Spec-side formulations

These definitions follow the wording of the specification (not the source);
they exist to be compared against the source-translated definitions above. -/

/-- Clamp of one scale component to `[0.1, 20.0]`, as worded by the spec. -/
def clamp_component (v : ℝ) : ℝ := min (max v 0.1) 20

/-- Scale update exactly as the spec words it: `new = old * (1 + speed·dt)`
componentwise, then each component clamped to `[0.1, 20.0]`. -/
def spec_multiplicative_update (speed dt : ℝ) (old : Vec3) : Vec3 :=
  ⟨clamp_component (old.x * (1 + speed * dt)),
   clamp_component (old.y * (1 + speed * dt)),
   clamp_component (old.z * (1 + speed * dt))⟩

/-- Amended scale update: the code's `scale * 1. + (speed * dt)` is the
additive update `old + speed·dt` on each component; x and y are clamped to
`[0.1, 20.0]` and z is overwritten with 1. -/
def amended_additive_update (speed dt : ℝ) (old : Vec3) : Vec3 :=
  ⟨clamp_component (old.x + speed * dt), clamp_component (old.y + speed * dt), 1⟩

/-- Componentwise scale bounds `[0.1, 20.0]` asserted by the spec invariant. -/
def scale_in_bounds (v : Vec3) : Prop :=
  0.1 ≤ v.x ∧ v.x ≤ 20 ∧ 0.1 ≤ v.y ∧ v.y ≤ 20 ∧ 0.1 ≤ v.z ∧ v.z ≤ 20

/-- Spawn position exactly as the claim words it:
`viewpoint + forward_axis * (visible_depth/2 + margin)
 + perpendicular_axis * (r * visible_width/2)`
with `visible_depth = 1080`, `visible_width = 720`, `margin = 64`. -/
def spec_spawn_position (camera_info : Transform × Velocity) (r : ℝ) : Vec3 :=
  let forward := camera_info.2.linvel.normalize_or_zero
  let perp := forward.rotate (Vec2.from_angle (Real.pi / 2))
  (camera_info.1.translation.truncate + forward * ((1080 : ℝ) / 2 + 64) +
      perp * (r * ((720 : ℝ) / 2))).extend 0

/-- Amended spawn position: the source's `camera_direction * 1080. / 2. + 64.`
broadcasts the margin 64 onto *both* coordinates instead of applying it along
the forward axis. -/
def amended_spawn_position (camera_info : Transform × Velocity) (r : ℝ) : Vec3 :=
  let forward := camera_info.2.linvel.normalize_or_zero
  let perp := forward.rotate (Vec2.from_angle (Real.pi / 2))
  (camera_info.1.translation.truncate + forward * ((1080 : ℝ) / 2) + Vec2.mk 64 64 +
      perp * (r * ((720 : ℝ) / 2))).extend 0

/-- Angle between two vectors as the claim reads it: the arccos of the
normalized dot product, in `[0, π]`. -/
def spec_angle (u v : Vec2) : ℝ :=
  Real.arccos (u.dot v / (u.length * v.length))

/-- View-culling outcome for one entity exactly as the claim words it: an
entity that is not visible and whose direction from the viewpoint makes an
angle with the viewpoint's heading of at least 90° and at most 270° is left
behind — Game-Over if it is the player, recursive despawn otherwise; every
other entity is untouched. -/
def spec_cull_outcome (camera_info : Transform × Velocity) (players : List Entity)
    (e : Entity × Bool × Transform) : List Command :=
  let diff := (e.2.2.translation - camera_info.1.translation).truncate
  let heading := camera_info.2.linvel
  if e.2.1 = false ∧ diff ≠ 0 ∧ heading ≠ 0 ∧
      Real.pi / 2 ≤ spec_angle diff heading ∧ spec_angle diff heading ≤ 3 * Real.pi / 2 then
    if e.1 ∈ players then [Command.sendGameOver] else [Command.despawnRecursive e.1]
  else []

/-! ## Componentwise simp lemmas for the vector instances -/

@[simp] lemma Vec2.zero_x : (0 : Vec2).x = 0 := rfl

@[simp] lemma Vec2.zero_y : (0 : Vec2).y = 0 := rfl

@[simp] lemma Vec2.add_x (a b : Vec2) : (a + b).x = a.x + b.x := rfl

@[simp] lemma Vec2.add_y (a b : Vec2) : (a + b).y = a.y + b.y := rfl

@[simp] lemma Vec2.sub_x (a b : Vec2) : (a - b).x = a.x - b.x := rfl

@[simp] lemma Vec2.sub_y (a b : Vec2) : (a - b).y = a.y - b.y := rfl

@[simp] lemma Vec2.neg_x (a : Vec2) : (-a).x = -a.x := rfl

@[simp] lemma Vec2.neg_y (a : Vec2) : (-a).y = -a.y := rfl

@[simp] lemma Vec2.mul_x (a : Vec2) (s : ℝ) : (a * s).x = a.x * s := rfl

@[simp] lemma Vec2.mul_y (a : Vec2) (s : ℝ) : (a * s).y = a.y * s := rfl

@[simp] lemma Vec2.div_x (a : Vec2) (s : ℝ) : (a / s).x = a.x / s := rfl

@[simp] lemma Vec2.div_y (a : Vec2) (s : ℝ) : (a / s).y = a.y / s := rfl

@[simp] lemma Vec2.add_scalar_x (a : Vec2) (s : ℝ) : (a + s).x = a.x + s := rfl

@[simp] lemma Vec2.add_scalar_y (a : Vec2) (s : ℝ) : (a + s).y = a.y + s := rfl

@[simp] lemma Vec3.zero_x3 : (0 : Vec3).x = 0 := rfl

@[simp] lemma Vec3.zero_y3 : (0 : Vec3).y = 0 := rfl

@[simp] lemma Vec3.zero_z : (0 : Vec3).z = 0 := rfl

@[simp] lemma Vec3.add_x3 (a b : Vec3) : (a + b).x = a.x + b.x := rfl

@[simp] lemma Vec3.add_y3 (a b : Vec3) : (a + b).y = a.y + b.y := rfl

@[simp] lemma Vec3.add_z (a b : Vec3) : (a + b).z = a.z + b.z := rfl

@[simp] lemma Vec3.sub_x3 (a b : Vec3) : (a - b).x = a.x - b.x := rfl

@[simp] lemma Vec3.sub_y3 (a b : Vec3) : (a - b).y = a.y - b.y := rfl

@[simp] lemma Vec3.sub_z (a b : Vec3) : (a - b).z = a.z - b.z := rfl

@[simp] lemma Vec3.mul_x3 (a : Vec3) (s : ℝ) : (a * s).x = a.x * s := rfl

@[simp] lemma Vec3.mul_y3 (a : Vec3) (s : ℝ) : (a * s).y = a.y * s := rfl

@[simp] lemma Vec3.mul_z (a : Vec3) (s : ℝ) : (a * s).z = a.z * s := rfl

@[simp] lemma Vec3.add_scalar_x3 (a : Vec3) (s : ℝ) : (a + s).x = a.x + s := rfl

@[simp] lemma Vec3.add_scalar_y3 (a : Vec3) (s : ℝ) : (a + s).y = a.y + s := rfl

@[simp] lemma Vec3.add_scalar_z (a : Vec3) (s : ℝ) : (a + s).z = a.z + s := rfl

@[simp] lemma Vec3.truncate_x (v : Vec3) : v.truncate.x = v.x := rfl

@[simp] lemma Vec3.truncate_y (v : Vec3) : v.truncate.y = v.y := rfl

@[simp] lemma Vec2.extend_def (v : Vec2) (z : ℝ) : v.extend z = ⟨v.x, v.y, z⟩ := rfl

/-! ## Basic facts about the embedded operations -/

lemma clamp_component_mem (v : ℝ) : 0.1 ≤ clamp_component v ∧ clamp_component v ≤ 20 := by
  unfold clamp_component
  constructor
  · exact le_min (le_max_right v 0.1) (by norm_num)
  · exact min_le_right _ _

/-- The scale written back by `Scale::apply` is the amended additive update. -/
lemma scale_apply_scale (s : Scale) (dt : ℝ) (t : Transform) :
    s.apply dt t = { t with scale := amended_additive_update s.speed dt t.scale } := by
  unfold Scale.apply amended_additive_update clamp_component
  simp [mul_one]

lemma bust_apply_scale (b : BustEffect) (dt : ℝ) (t : Transform) :
    b.apply dt t = { t with scale := amended_additive_update b.speed dt t.scale } := by
  unfold BustEffect.apply amended_additive_update clamp_component
  simp [mul_one]

lemma scale_apply_in_bounds (s : Scale) (dt : ℝ) (t : Transform) :
    scale_in_bounds (s.apply dt t).scale := by
  rw [scale_apply_scale]
  unfold scale_in_bounds amended_additive_update
  refine ⟨(clamp_component_mem _).1, (clamp_component_mem _).2,
    (clamp_component_mem _).1, (clamp_component_mem _).2, by norm_num, by norm_num⟩

/-! ## Claim C1 -/

/-- Claim C1 counterexample: at scale `(2,2,1)`, speed `1`, `dt = 1` both
`Scale::apply` and `BustEffect::apply` produce scale `(3,3,1)` — the additive
update `old + speed*dt` with z forced to 1 — whereas the claimed
multiplicative update `old * (1 + speed*dt)` clamped componentwise would
produce `(4,4,2)`. -/
theorem scale_update_not_multiplicative :
    ((Scale.mk 1).apply 1 (Transform.mk ⟨0, 0, 0⟩ ⟨2, 2, 1⟩)).scale = Vec3.mk 3 3 1 ∧
    ((BustEffect.mk 0 1).apply 1 (Transform.mk ⟨0, 0, 0⟩ ⟨2, 2, 1⟩)).scale = Vec3.mk 3 3 1 ∧
    spec_multiplicative_update 1 1 (Vec3.mk 2 2 1) = Vec3.mk 4 4 2 ∧
    Vec3.mk (3 : ℝ) 3 1 ≠ Vec3.mk 4 4 2 := by
  refine ⟨?_, ?_, ?_, ?_⟩
  · unfold Scale.apply
    simp only [Vec3.mul_x3, Vec3.mul_y3, Vec3.add_scalar_x3, Vec3.add_scalar_y3]
    norm_num [min_def, max_def]
  · unfold BustEffect.apply
    simp only [Vec3.mul_x3, Vec3.mul_y3, Vec3.add_scalar_x3, Vec3.add_scalar_y3]
    norm_num [min_def, max_def]
  · unfold spec_multiplicative_update clamp_component
    norm_num [min_def, max_def]
  · intro h
    have := congrArg Vec3.x h
    norm_num at this

/-- Claim C1 (amended): for every speed, every `dt ≥ 0` and every transform,
`Scale::apply` — and identically the per-frame `BustEffect` application —
performs the *additive* update `new = old + speed*dt` componentwise (the
source's `scale * 1. + (speed * dt)`), clamps the x and y components to
`[0.1, 20.0]`, and overwrites the z component with 1. -/
theorem scale_update_additive_clamped (s dt : ℝ) (target : Entity) (t : Transform)
    (hdt : 0 ≤ dt) :
    (Scale.mk s).apply dt t = { t with scale := amended_additive_update s dt t.scale } ∧
    (BustEffect.mk target s).apply dt t =
      { t with scale := amended_additive_update s dt t.scale } :=
  ⟨scale_apply_scale _ _ _, bust_apply_scale _ _ _⟩

/-- Witness for `scale_update_additive_clamped` at speed 1, `dt = 1`,
scale `(2,2,1)`. -/
theorem scale_update_additive_clamped_witness :
    (0 : ℝ) ≤ 1 ∧
    (Scale.mk 1).apply 1 (Transform.mk ⟨0, 0, 0⟩ ⟨2, 2, 1⟩) =
      Transform.mk ⟨0, 0, 0⟩ (amended_additive_update 1 1 ⟨2, 2, 1⟩) :=
  ⟨by norm_num,
   (scale_update_additive_clamped 1 1 0 (Transform.mk ⟨0, 0, 0⟩ ⟨2, 2, 1⟩) (by norm_num)).1⟩

/-! ## Claim C3 -/

/-- Claim C3: for every starting transform and every finite sequence of
`Scale::apply` calls with nonnegative deltas, after every call (i.e. after
every nonempty prefix of the call sequence) each component of the transform's
scale lies within `[0.1, 20.0]`. -/
theorem scale_seq_bounds (s : Scale) (dts : List ℝ) (t : Transform) (n : ℕ)
    (hdts : ∀ dt ∈ dts, 0 ≤ dt) (hn : 0 < n) (hlen : n ≤ dts.length) :
    scale_in_bounds (scale_apply_seq s (dts.take n) t).scale := by
  obtain ⟨m, rfl⟩ := Nat.exists_eq_succ_of_ne_zero hn.ne'
  have hm : m < dts.length := hlen
  rw [List.take_succ, List.getElem?_eq_getElem hm]
  unfold scale_apply_seq
  rw [List.foldl_append]
  simp only [Option.toList_some, List.foldl_cons, List.foldl_nil]
  exact scale_apply_in_bounds _ _ _

/-- Witness for `scale_seq_bounds`: one call with `dt = 1` on a transform
whose scale starts far outside the bounds. -/
theorem scale_seq_bounds_witness :
    (∀ dt ∈ [(1 : ℝ)], 0 ≤ dt) ∧ 0 < 1 ∧ 1 ≤ [(1 : ℝ)].length ∧
    scale_in_bounds
      (scale_apply_seq ⟨1⟩ ([(1 : ℝ)].take 1) (Transform.mk ⟨0, 0, 0⟩ ⟨50, 50, 50⟩)).scale :=
  ⟨by simp, by norm_num, by simp,
   scale_seq_bounds ⟨1⟩ [1] (Transform.mk ⟨0, 0, 0⟩ ⟨50, 50, 50⟩) 1
     (by simp) (by norm_num) (by simp)⟩

/-! ## Claim C10 -/

/-- Claim C10: `BustEffect::apply` and `Scale::apply` are extensionally equal
scale updates — for every target, speed, delta and transform they produce
identical resulting transforms. -/
theorem bust_apply_eq_scale_apply (target : Entity) (s dt : ℝ) (t : Transform) :
    (BustEffect.mk target s).apply dt t = (Scale.mk s).apply dt t := rfl

/-! ## Claim C2 -/

/-- Claim C2: for an overlapping (player, hazard) pair whose geometry query
succeeds with deepest penetration `p`: if the player's size
(`player.scale.x`) is at least the hazard's size (`hazard.scale.x`), the
player absorbs the hazard — the kind-specific effect is applied and the
hazard despawned — exactly when `|p| ≥ ORIGINAL_RADIUS * 2 * hazard_size`
(boundary-inclusive), and otherwise nothing happens; if the hazard is
strictly bigger, a Game-Over is emitted exactly when
`|p| ≥ ORIGINAL_RADIUS * 2 * player_size`, and otherwise nothing happens. -/
theorem hit_obstacle_thresholds (ctx : RapierContext)
    (player_entity colliding_entity : Entity) (scale : Scale)
    (player_transform obstacle_transform : Transform) (obstacle : Obstacle)
    (cpv : ContactPairView) (dc : ContactManifoldView × ContactPointView)
    (hpair : ctx.contact_pair colliding_entity player_entity = some cpv)
    (hdeep : cpv.find_deepest_contact = some dc) :
    (player_transform.scale.x ≥ obstacle_transform.scale.x →
      ((hit_obstacle_pair ctx player_entity scale player_transform colliding_entity
            obstacle obstacle_transform =
          .ok (obstacle.create_effect player_entity scale ++
                [Command.despawnRecursive colliding_entity])) ↔
        |dc.2.dist| ≥ ORIGINAL_RADIUS * 2 * obstacle_transform.scale.x) ∧
      (¬ |dc.2.dist| ≥ ORIGINAL_RADIUS * 2 * obstacle_transform.scale.x →
        hit_obstacle_pair ctx player_entity scale player_transform colliding_entity
            obstacle obstacle_transform = .ok [])) ∧
    (obstacle_transform.scale.x > player_transform.scale.x →
      ((hit_obstacle_pair ctx player_entity scale player_transform colliding_entity
            obstacle obstacle_transform = .ok [Command.sendGameOver]) ↔
        |dc.2.dist| ≥ ORIGINAL_RADIUS * 2 * player_transform.scale.x) ∧
      (¬ |dc.2.dist| ≥ ORIGINAL_RADIUS * 2 * player_transform.scale.x →
        hit_obstacle_pair ctx player_entity scale player_transform colliding_entity
            obstacle obstacle_transform = .ok [])) := by
  simp only [hit_obstacle_pair, hpair, hdeep]
  constructor
  · intro hge
    rw [if_pos hge]
    by_cases hth : |dc.2.dist| ≥ ORIGINAL_RADIUS * 2 * obstacle_transform.scale.x
    · rw [if_pos hth]
      exact ⟨⟨fun _ => hth, fun _ => rfl⟩, fun hc => absurd hth hc⟩
    · rw [if_neg hth]
      refine ⟨⟨fun heq => ?_, fun hc => absurd hc hth⟩, fun _ => rfl⟩
      exfalso
      have hlist : ([] : List Command) =
          obstacle.create_effect player_entity scale ++
            [Command.despawnRecursive colliding_entity] := by
        injection heq
      exact (List.append_ne_nil_of_right_ne_nil _ (by simp)) hlist.symm
  · intro hgt
    rw [if_neg (not_le.mpr hgt)]
    by_cases hth : |dc.2.dist| ≥ ORIGINAL_RADIUS * 2 * player_transform.scale.x
    · rw [if_pos hth]
      exact ⟨⟨fun _ => hth, fun _ => rfl⟩, fun hc => absurd hth hc⟩
    · rw [if_neg hth]
      refine ⟨⟨fun heq => ?_, fun hc => absurd hc hth⟩, fun _ => rfl⟩
      exfalso
      have hlist : ([] : List Command) = [Command.sendGameOver] := by injection heq
      simp at hlist

/-- Witness for `hit_obstacle_thresholds`: a player of size 2 against a Block
hazard of size 1; at penetration depth exactly `ORIGINAL_RADIUS*2*1 = 64` the
hazard is absorbed and despawned, at depth 63 nothing happens. -/
theorem hit_obstacle_thresholds_witness :
    (hit_obstacle_pair ⟨fun _ _ => some ⟨some (⟨⟨0, 1⟩⟩, ⟨-64⟩)⟩⟩ 0 ⟨1⟩
        (Transform.mk ⟨0, 0, 0⟩ ⟨2, 2, 1⟩) 1 ⟨.block⟩ (Transform.mk ⟨0, 0, 0⟩ ⟨1, 1, 1⟩) =
      .ok ((Obstacle.mk .block).create_effect 0 ⟨1⟩ ++ [Command.despawnRecursive 1])) ∧
    (hit_obstacle_pair ⟨fun _ _ => some ⟨some (⟨⟨0, 1⟩⟩, ⟨-63⟩)⟩⟩ 0 ⟨1⟩
        (Transform.mk ⟨0, 0, 0⟩ ⟨2, 2, 1⟩) 1 ⟨.block⟩ (Transform.mk ⟨0, 0, 0⟩ ⟨1, 1, 1⟩) =
      .ok []) := by
  constructor
  · exact ((hit_obstacle_thresholds ⟨fun _ _ => some ⟨some (⟨⟨0, 1⟩⟩, ⟨-64⟩)⟩⟩ 0 1 ⟨1⟩
      (Transform.mk ⟨0, 0, 0⟩ ⟨2, 2, 1⟩) (Transform.mk ⟨0, 0, 0⟩ ⟨1, 1, 1⟩) ⟨.block⟩
      ⟨some (⟨⟨0, 1⟩⟩, ⟨-64⟩)⟩ (⟨⟨0, 1⟩⟩, ⟨-64⟩) rfl rfl).1 (by norm_num)).1.mpr
      (by rw [abs_of_nonpos (by norm_num)]; norm_num [ORIGINAL_RADIUS])
  · exact ((hit_obstacle_thresholds ⟨fun _ _ => some ⟨some (⟨⟨0, 1⟩⟩, ⟨-63⟩)⟩⟩ 0 1 ⟨1⟩
      (Transform.mk ⟨0, 0, 0⟩ ⟨2, 2, 1⟩) (Transform.mk ⟨0, 0, 0⟩ ⟨1, 1, 1⟩) ⟨.block⟩
      ⟨some (⟨⟨0, 1⟩⟩, ⟨-63⟩)⟩ (⟨⟨0, 1⟩⟩, ⟨-63⟩) rfl rfl).1 (by norm_num)).2
      (by rw [abs_of_nonpos (by norm_num)]; norm_num [ORIGINAL_RADIUS])

/-! ## Claim C5 -/

/-- Claim C5 counterexample: a pair reported as overlapping whose contact
query returns nothing makes the per-pair handling of `hit_obstacle_system`
panic (`Option::unwrap` on `None`) — it is not a defensive no-op. -/
theorem hit_obstacle_missing_contact_not_noop :
    hit_obstacle_pair ⟨fun _ _ => none⟩ 0 ⟨1⟩ (Transform.mk ⟨0, 0, 0⟩ ⟨1, 1, 1⟩) 1
        ⟨.block⟩ (Transform.mk ⟨0, 0, 0⟩ ⟨1, 1, 1⟩) = .error .unwrapNone ∧
    (Except.error Panic.unwrapNone : Except Panic (List Command)) ≠ .ok [] := by
  exact ⟨rfl, by simp⟩

/-- Claim C5 (amended): when the geometry query for a reportedly-overlapping
pair fails — no contact pair, or no deepest contact — the per-pair handling
of `hit_obstacle_system` panics (it unwraps the missing value), aborting the
frame, instead of treating the pair as a no-op. -/
theorem hit_obstacle_missing_contact_panics (ctx : RapierContext)
    (player_entity colliding_entity : Entity) (scale : Scale)
    (player_transform obstacle_transform : Transform) (obstacle : Obstacle) :
    (ctx.contact_pair colliding_entity player_entity = none →
      hit_obstacle_pair ctx player_entity scale player_transform colliding_entity
          obstacle obstacle_transform = .error .unwrapNone) ∧
    (∀ cpv, ctx.contact_pair colliding_entity player_entity = some cpv →
      cpv.find_deepest_contact = none →
      hit_obstacle_pair ctx player_entity scale player_transform colliding_entity
          obstacle obstacle_transform = .error .unwrapNone) := by
  constructor
  · intro h
    simp only [hit_obstacle_pair, h]
  · intro cpv h hdeep
    simp only [hit_obstacle_pair, h, hdeep]

/-- Witness for `hit_obstacle_missing_contact_panics` at a context with no
contact data at all. -/
theorem hit_obstacle_missing_contact_panics_witness :
    hit_obstacle_pair ⟨fun _ _ => none⟩ 2 ⟨1⟩ (Transform.mk ⟨0, 0, 0⟩ ⟨1, 1, 1⟩) 3
        ⟨.poison⟩ (Transform.mk ⟨0, 0, 0⟩ ⟨1, 1, 1⟩) = .error .unwrapNone :=
  (hit_obstacle_missing_contact_panics ⟨fun _ _ => none⟩ 2 3 ⟨1⟩
      (Transform.mk ⟨0, 0, 0⟩ ⟨1, 1, 1⟩) (Transform.mk ⟨0, 0, 0⟩ ⟨1, 1, 1⟩) ⟨.poison⟩).1 rfl

lemma get_single_ok {α : Type} (x : α) : get_single [x] = .ok x := rfl

lemma get_single_error {α : Type} (l : List α) (h : l.length ≠ 1) :
    get_single l = .error .getSingleUnwrap := by
  match l with
  | [] => rfl
  | [x] => exact absurd rfl h
  | x :: y :: rest => rfl

/-! ## Claim C4 -/

/-- Claim C4 counterexample: with no player entity present, `enemy_system`
fails with a panic (`get_single().unwrap()`), and with no camera present so
does `despawn_out_of_view` — neither is a silent no-op. -/
theorem missing_singleton_not_silent :
    enemy_system [] [] = .error Panic.getSingleUnwrap ∧
    despawn_out_of_view [] [] [] = .error Panic.getSingleUnwrap ∧
    (Except.error Panic.getSingleUnwrap : Except Panic (List Command)) ≠ .ok [] :=
  ⟨rfl, rfl, by simp⟩

/-- Claim C4 (amended): when the camera or the player singleton cannot be
located (zero or several matches), `obstacle_factory_system` is a silent
no-op, but `enemy_system` panics whenever the player lookup fails and
`despawn_out_of_view` panics whenever the camera lookup fails. -/
theorem missing_singleton_behavior :
    (∀ (cameras : List (Transform × Velocity)) (players : List Transform)
        (factories : List FactoryEntry),
      cameras.length ≠ 1 ∨ players.length ≠ 1 →
      obstacle_factory_system cameras players factories = .ok []) ∧
    (∀ (enemies : List (Entity × Enemy × Transform))
        (players : List (Entity × Transform)),
      players.length ≠ 1 →
      enemy_system enemies players = .error Panic.getSingleUnwrap) ∧
    (∀ (cameras : List (Transform × Velocity)) (players : List Entity)
        (entities : List (Entity × Bool × Transform)),
      cameras.length ≠ 1 →
      despawn_out_of_view cameras players entities = .error Panic.getSingleUnwrap) := by
  refine ⟨?_, ?_, ?_⟩
  · intro cameras players factories h
    rcases h with h | h
    · simp only [obstacle_factory_system, get_single_error _ h]
    · cases hc : get_single cameras with
      | error e => simp only [obstacle_factory_system, hc]
      | ok c => simp only [obstacle_factory_system, hc, get_single_error _ h]
  · intro enemies players h
    simp only [enemy_system, get_single_error _ h]
  · intro cameras players entities h
    simp only [despawn_out_of_view, get_single_error _ h]

/-- Witness for `missing_singleton_behavior` at empty queries. -/
theorem missing_singleton_behavior_witness :
    ([] : List (Transform × Velocity)).length ≠ 1 ∧
    obstacle_factory_system [] [] [] = .ok [] ∧
    enemy_system [] [] = .error Panic.getSingleUnwrap ∧
    despawn_out_of_view [] [] [] = .error Panic.getSingleUnwrap :=
  ⟨by simp,
   missing_singleton_behavior.1 [] [] [] (Or.inl (by simp)),
   missing_singleton_behavior.2.1 [] [] (by simp),
   missing_singleton_behavior.2.2 [] [] [] (by simp)⟩

/-! ## Claim C6 -/

/-- Claim C6 counterexample: a `Destroy` effect (entity 1) whose target
(entity 5) no longer exists makes `destroy_system` panic —
`Commands::entity(target)` on a despawned entity — instead of quietly
despawning itself. -/
theorem destroy_dangling_target_panics :
    destroy_system [(1, ⟨5⟩)] [] [1] = .error (Panic.missingEntity 5) ∧
    (Except.error (Panic.missingEntity 5) : Except Panic (List Command)) ≠
      .ok [Command.despawn 1] :=
  ⟨rfl, by simp⟩

/-- Claim C6 (amended): a `BustEffect` whose target entity is gone is
skipped without fault by `bust_effect_system` and still expires on its own
`Temporary` timer; a `Destroy` effect whose target entity is gone, however,
makes `destroy_system` panic when it builds the despawn command for the
missing target. -/
theorem dangling_effect_behavior :
    (∀ (delta : ℝ) (effect : BustEffect) (targets : List (Entity × Transform)),
      effect.target ∉ targets.map Prod.fst →
      bust_effect_system delta [effect] targets = targets) ∧
    (∀ (delta : ℝ) (ent : Entity) (tmp : Temporary),
      (tmp.timer.tick delta).finished →
      (temporary_despawn_system delta [(ent, tmp)]).2 = [Command.despawnRecursive ent]) ∧
    (∀ (destroy_entity target : Entity) (players alive : List Entity),
      target ∉ players → target ∉ alive →
      destroy_system [(destroy_entity, ⟨target⟩)] players alive =
        .error (Panic.missingEntity target)) := by
  refine ⟨?_, ?_, ?_⟩
  · intro delta effect targets h
    simp only [bust_effect_system, List.foldl_cons, List.foldl_nil, bust_apply_one]
    have : ∀ p ∈ targets,
        (if p.1 = effect.target then (p.1, effect.apply delta p.2) else p) = p := by
      intro p hp
      rw [if_neg]
      intro hpe
      exact h (hpe ▸ List.mem_map_of_mem Prod.fst hp)
    rw [List.map_congr_left this]
    exact List.map_id _
  · intro delta ent tmp hfin
    simp only [temporary_despawn_system, List.flatMap_cons, List.flatMap_nil,
      List.append_nil]
    rw [if_pos hfin]
  · intro destroy_entity target players alive hp ha
    simp only [destroy_system, List.foldlM_cons, List.foldlM_nil, destroy_step]
    rw [if_neg hp, if_neg ha]
    rfl

/-- Witness for `dangling_effect_behavior`: a bust effect and a destroy
effect both targeting the missing entity 5, plus an expiring timer. -/
theorem dangling_effect_behavior_witness :
    (5 : Entity) ∉ [((1 : Entity), Transform.mk ⟨0, 0, 0⟩ ⟨1, 1, 1⟩)].map Prod.fst ∧
    bust_effect_system 1 [⟨5, 2⟩] [(1, Transform.mk ⟨0, 0, 0⟩ ⟨1, 1, 1⟩)] =
      [(1, Transform.mk ⟨0, 0, 0⟩ ⟨1, 1, 1⟩)] ∧
    ((Temporary.mk ⟨0, 0.5⟩).timer.tick 1).finished ∧
    (temporary_despawn_system 1 [(4, ⟨⟨0, 0.5⟩⟩)]).2 = [Command.despawnRecursive 4] ∧
    destroy_system [(1, ⟨5⟩)] [] [1, 2] = .error (Panic.missingEntity 5) :=
  ⟨by simp,
   dangling_effect_behavior.1 1 ⟨5, 2⟩ [(1, Transform.mk ⟨0, 0, 0⟩ ⟨1, 1, 1⟩)] (by simp),
   by unfold Timer.tick Timer.finished; norm_num,
   dangling_effect_behavior.2.1 1 4 ⟨⟨0, 0.5⟩⟩
     (by unfold Timer.tick Timer.finished; norm_num),
   dangling_effect_behavior.2.2 1 5 [] [1, 2] (by simp) (by simp)⟩

/-! ## Length and normalization facts -/

lemma Vec2.length_squared_nonneg (v : Vec2) : 0 ≤ v.length_squared :=
  add_nonneg (sq_nonneg _) (sq_nonneg _)

lemma Vec2.length_nonneg (v : Vec2) : 0 ≤ v.length := Real.sqrt_nonneg _

lemma Vec2.sq_length (v : Vec2) : v.length ^ 2 = v.length_squared :=
  Real.sq_sqrt v.length_squared_nonneg

lemma Vec2.length_squared_eq_zero_iff (v : Vec2) : v.length_squared = 0 ↔ v = 0 := by
  unfold Vec2.length_squared
  rw [add_eq_zero_iff_of_nonneg (sq_nonneg _) (sq_nonneg _),
    pow_eq_zero_iff (two_ne_zero), pow_eq_zero_iff (two_ne_zero)]
  constructor
  · rintro ⟨hx, hy⟩
    ext <;> simpa
  · rintro rfl
    simp

lemma Vec2.length_eq_zero_iff (v : Vec2) : v.length = 0 ↔ v = 0 := by
  rw [Vec2.length, Real.sqrt_eq_zero v.length_squared_nonneg, v.length_squared_eq_zero_iff]

lemma Vec2.length_pos_iff (v : Vec2) : 0 < v.length ↔ v ≠ 0 := by
  rw [v.length_nonneg.lt_iff_ne, ne_comm]
  exact not_congr v.length_eq_zero_iff

lemma Vec2.length_mul_scalar (v : Vec2) (c : ℝ) : (v * c).length = v.length * |c| := by
  unfold Vec2.length Vec2.length_squared
  simp only [Vec2.mul_x, Vec2.mul_y]
  rw [show (v.x * c) ^ 2 + (v.y * c) ^ 2 = (v.x ^ 2 + v.y ^ 2) * c ^ 2 by ring,
    Real.sqrt_mul (add_nonneg (sq_nonneg _) (sq_nonneg _)), Real.sqrt_sq_eq_abs]

lemma Vec2.dot_mul_left (a b : Vec2) (c : ℝ) : (a * c).dot b = a.dot b * c := by
  unfold Vec2.dot
  simp only [Vec2.mul_x, Vec2.mul_y]
  ring

lemma Vec2.dot_mul_right (a b : Vec2) (c : ℝ) : a.dot (b * c) = a.dot b * c := by
  unfold Vec2.dot
  simp only [Vec2.mul_x, Vec2.mul_y]
  ring

lemma Vec2.normalize_or_zero_of_ne_zero (v : Vec2) (h : v ≠ 0) :
    v.normalize_or_zero = v * (1 / v.length) :=
  if_pos (v.length_pos_iff.mpr h)

lemma Vec2.normalize_or_zero_zero : (0 : Vec2).normalize_or_zero = 0 := by
  unfold Vec2.normalize_or_zero
  rw [if_neg]
  rw [not_lt, (Vec2.length_eq_zero_iff 0).mpr rfl]

lemma Vec2.length_normalize_or_zero (v : Vec2) (h : v ≠ 0) :
    v.normalize_or_zero.length = 1 := by
  have hp : 0 < v.length := v.length_pos_iff.mpr h
  rw [v.normalize_or_zero_of_ne_zero h, Vec2.length_mul_scalar,
    abs_of_pos (by positivity), mul_one_div, div_self hp.ne']

lemma Vec2.length_squared_normalize_or_zero (v : Vec2) (h : v ≠ 0) :
    v.normalize_or_zero.length_squared = 1 := by
  rw [← Vec2.sq_length, v.length_normalize_or_zero h, one_pow]

/-- A square root evaluated through its square. -/
lemma sqrt_of_eq_sq (a b : ℝ) (hb : 0 ≤ b) (h : a = b ^ 2) : Real.sqrt a = b := by
  rw [h]
  exact Real.sqrt_sq hb

lemma Velocity.linvel_linear (v : Vec2) : (Velocity.linear v).linvel = v := rfl

/-! ## Claim C7 -/

/-- Claim C7 counterexample: with the camera at the origin moving with
velocity `(0, 80)` (so `forward = (0,1)`, `perp = (-1,0)`) and a centered
random draw `r = 0`, the factory emits spawn positions `(64, 604, 0)` — the
margin 64 is broadcast onto the x coordinate as well — while the claimed
formula `viewpoint + forward*(1080/2 + 64) + perp*(r*720/2)` gives
`(0, 604, 0)`. -/
theorem spawn_position_not_forward_margin :
    (ObstacleFactoryComponent.create true
        (Transform.mk ⟨0, 0, 0⟩ ⟨1, 1, 1⟩, Velocity.linear ⟨0, 80⟩)
        ⟨0, 0, 2⟩ ⟨0, 0, 2⟩).map (fun e => e.position) =
      [Vec3.mk 64 604 0, Vec3.mk 64 604 0] ∧
    spec_spawn_position (Transform.mk ⟨0, 0, 0⟩ ⟨1, 1, 1⟩, Velocity.linear ⟨0, 80⟩) 0 =
      Vec3.mk 0 604 0 ∧
    Vec3.mk (64 : ℝ) 604 0 ≠ Vec3.mk 0 604 0 := by
  have hne : (Vec2.mk 0 80) ≠ 0 := by
    intro h
    have := congrArg Vec2.y h
    norm_num at this
  have hL : (Vec2.mk 0 80).length = 80 := by
    apply sqrt_of_eq_sq _ _ (by norm_num)
    unfold Vec2.length_squared
    norm_num
  have hn : (Vec2.mk (0 : ℝ) 80).normalize_or_zero = ⟨0, 1⟩ := by
    rw [Vec2.normalize_or_zero_of_ne_zero _ hne, hL]
    ext <;> norm_num
  have hangle : Vec2.from_angle (Real.pi / 2) = ⟨0, 1⟩ := by
    unfold Vec2.from_angle
    rw [Real.cos_pi_div_two, Real.sin_pi_div_two]
  refine ⟨?_, ?_, ?_⟩
  · unfold ObstacleFactoryComponent.create
    simp only [Velocity.linear, hn, hangle, Bool.not_true, if_false, List.map_cons,
      List.map_nil, Vec2.extend_def]
    unfold Vec2.rotate
    norm_num [Vec3.mk.injEq, Vec2.ext_iff]
  · unfold spec_spawn_position
    simp only [Velocity.linear, hn, hangle, Vec2.extend_def]
    unfold Vec2.rotate
    norm_num [Vec3.mk.injEq, Vec2.ext_iff]
  · intro h
    have := congrArg Vec3.x h
    norm_num at this

/-- Claim C7 (amended): every spawn request emitted on an interval completion
has position
`viewpoint + forward*(1080/2) + (64, 64) + perp*(r*720/2)` — i.e. the margin
64 is added to *both* coordinates of the viewpoint-relative offset (the
source's `camera_direction * 1080. / 2. + 64.` broadcasts the scalar), with
`forward` the viewpoint's normalized velocity direction, `perp` its 90°
rotation, and `r` the signed unit draw of that request. -/
theorem spawn_position_broadcast_margin (camera_info : Transform × Velocity)
    (d0 d1 : RngDraw) :
    (ObstacleFactoryComponent.create true camera_info d0 d1).map (fun e => e.position) =
      [amended_spawn_position camera_info d0.f32_normalized,
       amended_spawn_position camera_info d1.f32_normalized] := by
  unfold ObstacleFactoryComponent.create amended_spawn_position
  simp only [Bool.not_true, if_false, List.map_cons, List.map_nil, Vec2.extend_def]
  norm_num [Vec3.mk.injEq]
  constructor <;> constructor <;> ring

/-! ## Claim C8 -/

/-- Unfolded shape of `Enemy::tick`: the chosen strategy bucket applied to
the normalized direction and surface distance, scaled by `calc_speed`. -/
lemma enemy_tick_eq (self : Enemy) (et pt : Transform) (ev pv : Velocity) :
    self.tick (et, ev) (pt, pv) = Velocity.linear
      ((if et.scale.length > pt.scale.length then self.when_bigger
        else if pt.scale.length > et.scale.length then self.when_smaller
        else self.when_equal).calc
        ((pt.translation.truncate - et.translation.truncate).normalize_or_zero)
        (max ((pt.translation.truncate - et.translation.truncate).length -
          pt.scale.length * ORIGINAL_RADIUS) 0) * calc_speed et) := by
  unfold Enemy.tick
  dsimp only
  by_cases h1 : et.scale.length > pt.scale.length
  · rw [if_pos h1, if_pos h1]
  · rw [if_neg h1, if_neg h1]
    by_cases h2 : pt.scale.length > et.scale.length
    · rw [if_pos h2, if_pos h2]
    · rw [if_neg h2, if_neg h2]

/-- Claim C8 (amended): `Enemy::tick` feeds the selected strategy the
distance `max(0, |player.position − enemy.position| − player.scale.length() *
ORIGINAL_RADIUS)` (distance to the player's surface), and whenever the
selected strategy yields a unit direction the returned velocity has magnitude
`200 / sqrt(enemy.scale.truncate().length())` — the inverse square root of
the *2D* length of the enemy's scale, not of the full 3D `scale.length()`. -/
theorem enemy_tick_distance_speed (self : Enemy) (et pt : Transform) (ev pv : Velocity) :
    (self.tick (et, ev) (pt, pv) = Velocity.linear
      ((if et.scale.length > pt.scale.length then self.when_bigger
        else if pt.scale.length > et.scale.length then self.when_smaller
        else self.when_equal).calc
        ((pt.translation.truncate - et.translation.truncate).normalize_or_zero)
        (max 0 ((pt.translation.truncate - et.translation.truncate).length -
          pt.scale.length * ORIGINAL_RADIUS)) * calc_speed et)) ∧
    (((if et.scale.length > pt.scale.length then self.when_bigger
        else if pt.scale.length > et.scale.length then self.when_smaller
        else self.when_equal).calc
        ((pt.translation.truncate - et.translation.truncate).normalize_or_zero)
        (max 0 ((pt.translation.truncate - et.translation.truncate).length -
          pt.scale.length * ORIGINAL_RADIUS))).length = 1 →
      (self.tick (et, ev) (pt, pv)).linvel.length =
        200 / Real.sqrt et.scale.truncate.length) := by
  have htick := enemy_tick_eq self et pt ev pv
  rw [max_comm] at htick
  refine ⟨htick, fun h => ?_⟩
  rw [htick, Velocity.linvel_linear, Vec2.length_mul_scalar, h, one_mul]
  unfold calc_speed
  rw [abs_of_nonneg (by positivity), one_div_mul_eq_div]

/-- Witness for `enemy_tick_distance_speed`: an aggressive enemy of scale
`(3,4,12)` at the origin and a player at `(3,4)`; the chosen Follow strategy
yields the unit direction `(3/5, 4/5)`. -/
theorem enemy_tick_distance_speed_witness :
    (Enemy.lazy_aggressive.tick
        (Transform.mk ⟨0, 0, 0⟩ ⟨3, 4, 12⟩, Velocity.zero)
        (Transform.mk ⟨3, 4, 0⟩ ⟨0, 0, 0⟩, Velocity.zero)).linvel.length =
      200 / Real.sqrt ((Vec3.mk (3 : ℝ) 4 12).truncate.length) := by
  have hdiff : ((Vec3.mk (3 : ℝ) 4 0).truncate - (Vec3.mk (0 : ℝ) 0 0).truncate) =
      Vec2.mk 3 4 := by
    ext <;> norm_num
  have hdne : (Vec2.mk (3 : ℝ) 4) ≠ 0 := by
    intro h
    have := congrArg Vec2.y h
    norm_num at this
  have hdL : (Vec2.mk (3 : ℝ) 4).length = 5 := by
    apply sqrt_of_eq_sq _ _ (by norm_num)
    unfold Vec2.length_squared
    norm_num
  have heL : (Vec3.mk (3 : ℝ) 4 12).length = 13 := by
    apply sqrt_of_eq_sq _ _ (by norm_num)
    norm_num
  have hpL : (Vec3.mk (0 : ℝ) 0 0).length = 0 := by
    unfold Vec3.length
    norm_num
  apply (enemy_tick_distance_speed Enemy.lazy_aggressive
      (Transform.mk ⟨0, 0, 0⟩ ⟨3, 4, 12⟩) (Transform.mk ⟨3, 4, 0⟩ ⟨0, 0, 0⟩)
      Velocity.zero Velocity.zero).2
  dsimp only
  rw [heL, hpL, if_pos (show (13 : ℝ) > 0 by norm_num), hdiff, hdL]
  unfold Enemy.lazy_aggressive
  dsimp only
  unfold Strategy.calc
  dsimp only
  rw [if_pos (show (128 : ℝ) ≥ max 0 (5 - 0 * ORIGINAL_RADIUS) by
    norm_num [ORIGINAL_RADIUS])]
  exact Vec2.length_normalize_or_zero _ hdne

/-- Claim C8 counterexample: for the enemy scale `(3,4,12)` the returned
velocity has magnitude `200 / sqrt 5` (from the truncated 2D scale length
`|(3,4)| = 5`), whereas the claimed `BASE_SPEED / sqrt(enemy.scale.length())`
is `200 / sqrt 13` — and these differ. -/
theorem enemy_speed_uses_truncated_length :
    (Enemy.lazy_aggressive.tick
        (Transform.mk ⟨0, 0, 0⟩ ⟨3, 4, 12⟩, Velocity.zero)
        (Transform.mk ⟨3, 4, 0⟩ ⟨0, 0, 0⟩, Velocity.zero)).linvel.length =
      200 / Real.sqrt 5 ∧
    ((Vec2.mk (3 : ℝ) 4).normalize_or_zero).length = 1 ∧
    (Vec3.mk (3 : ℝ) 4 12).length = 13 ∧
    200 / Real.sqrt 5 ≠ 200 / Real.sqrt 13 := by
  have hdiff : ((Vec3.mk (3 : ℝ) 4 0).truncate - (Vec3.mk (0 : ℝ) 0 0).truncate) =
      Vec2.mk 3 4 := by
    ext <;> norm_num
  have hdne : (Vec2.mk (3 : ℝ) 4) ≠ 0 := by
    intro h
    have := congrArg Vec2.y h
    norm_num at this
  have hdL : (Vec2.mk (3 : ℝ) 4).length = 5 := by
    apply sqrt_of_eq_sq _ _ (by norm_num)
    unfold Vec2.length_squared
    norm_num
  have heL : (Vec3.mk (3 : ℝ) 4 12).length = 13 := by
    apply sqrt_of_eq_sq _ _ (by norm_num)
    norm_num
  have hpL : (Vec3.mk (0 : ℝ) 0 0).length = 0 := by
    unfold Vec3.length
    norm_num
  refine ⟨?_, Vec2.length_normalize_or_zero _ hdne, heL, ?_⟩
  · rw [enemy_tick_eq, Velocity.linvel_linear]
    dsimp only
    rw [heL, hpL, if_pos (show (13 : ℝ) > 0 by norm_num), hdiff, hdL]
    unfold Enemy.lazy_aggressive
    dsimp only
    unfold Strategy.calc
    dsimp only
    rw [if_pos (show (128 : ℝ) ≥ max (5 - 0 * ORIGINAL_RADIUS) 0 by
      norm_num [ORIGINAL_RADIUS])]
    rw [Vec2.length_mul_scalar, Vec2.length_normalize_or_zero _ hdne, one_mul]
    unfold calc_speed
    dsimp only
    rw [show ((Vec3.mk (3 : ℝ) 4 12).truncate) = Vec2.mk 3 4 from rfl, hdL,
      abs_of_nonneg (by positivity), one_div_mul_eq_div]
  · have h5 : Real.sqrt 5 < Real.sqrt 13 :=
      Real.sqrt_lt_sqrt (by norm_num) (by norm_num)
    have h5p : 0 < Real.sqrt 5 := Real.sqrt_pos.mpr (by norm_num)
    have : 200 / Real.sqrt 13 < 200 / Real.sqrt 5 :=
      div_lt_div_of_pos_left (by norm_num) h5p h5
    exact ne_of_gt this

/-! ## Claim C9 -/

lemma f32_to_radians_90 : f32_to_radians 90 = Real.pi / 2 := by
  unfold f32_to_radians
  ring

lemma f32_to_radians_270 : f32_to_radians 270 = 3 * Real.pi / 2 := by
  unfold f32_to_radians
  ring

/-- Per-entity agreement between the `despawn_out_of_view` loop body and the
claim's description of view culling. -/
lemma cull_entity_eq (camera_info : Transform × Velocity) (players : List Entity)
    (e : Entity × Bool × Transform) :
    (if e.2.1 then ([] : List Command)
     else
       match ((e.2.2.translation - camera_info.1.translation).truncate.normalize_or_zero).angle_between
           (camera_info.2.linvel.normalize_or_zero) with
       | Option.none => []
       | some a =>
         if |a| ≥ f32_to_radians 90 ∧ |a| ≤ f32_to_radians 270 then
           if e.1 ∈ players then [Command.sendGameOver]
           else [Command.despawnRecursive e.1]
         else []) = spec_cull_outcome camera_info players e := by
  unfold spec_cull_outcome spec_angle
  dsimp only
  by_cases hv : e.2.1
  · rw [if_pos hv, if_neg (by simp [hv])]
  · have hv' : e.2.1 = false := by simpa using hv
    rw [if_neg hv]
    by_cases hd : (e.2.2.translation - camera_info.1.translation).truncate = 0
    · rw [hd, Vec2.normalize_or_zero_zero]
      unfold Vec2.angle_between
      rw [if_pos (by simp [Vec2.length_squared])]
      simp
    · by_cases hl : camera_info.2.linvel = 0
      · rw [hl, Vec2.normalize_or_zero_zero]
        unfold Vec2.angle_between
        rw [if_pos (by simp [Vec2.length_squared])]
        simp
      · have hdn := Vec2.length_squared_normalize_or_zero _ hd
        have hln := Vec2.length_squared_normalize_or_zero _ hl
        unfold Vec2.angle_between
        rw [if_neg (by rw [hdn, hln]; norm_num)]
        dsimp only
        have harg :
            ((e.2.2.translation - camera_info.1.translation).truncate.normalize_or_zero).dot
                (camera_info.2.linvel.normalize_or_zero) /
              Real.sqrt
                (((e.2.2.translation -
                    camera_info.1.translation).truncate.normalize_or_zero).length_squared *
                  (camera_info.2.linvel.normalize_or_zero).length_squared) =
            ((e.2.2.translation - camera_info.1.translation).truncate).dot
                camera_info.2.linvel /
              (((e.2.2.translation - camera_info.1.translation).truncate).length *
                camera_info.2.linvel.length) := by
          rw [hdn, hln, mul_one, Real.sqrt_one, div_one,
            Vec2.normalize_or_zero_of_ne_zero _ hd, Vec2.normalize_or_zero_of_ne_zero _ hl,
            Vec2.dot_mul_left, Vec2.dot_mul_right]
          ring
        rw [harg]
        set A := Real.arccos
          (((e.2.2.translation - camera_info.1.translation).truncate).dot
              camera_info.2.linvel /
            (((e.2.2.translation - camera_info.1.translation).truncate).length *
              camera_info.2.linvel.length)) with hA
        have hA0 : 0 ≤ A := by
          rw [hA]
          exact Real.arccos_nonneg _
        have habs :
            |if ((e.2.2.translation -
                camera_info.1.translation).truncate.normalize_or_zero).perp_dot
                  (camera_info.2.linvel.normalize_or_zero) < 0 then -A else A| = A := by
          by_cases hp : ((e.2.2.translation -
              camera_info.1.translation).truncate.normalize_or_zero).perp_dot
                (camera_info.2.linvel.normalize_or_zero) < 0
          · rw [if_pos hp, abs_neg, abs_of_nonneg hA0]
          · rw [if_neg hp, abs_of_nonneg hA0]
        rw [habs, f32_to_radians_90, f32_to_radians_270]
        refine if_congr ?_ rfl rfl
        constructor
        · rintro ⟨h1, h2⟩
          exact ⟨hv', hd, hl, h1, h2⟩
        · rintro ⟨_, _, _, h1, h2⟩
          exact ⟨h1, h2⟩

/-- Claim C9: with a single camera present, `despawn_out_of_view` emits, for
every queried entity, exactly the claim's outcome: an invisible entity whose
direction from the viewpoint makes an angle of at least 90° and at most 270°
with the viewpoint's heading triggers a Game-Over if it is the player and a
recursive despawn otherwise; visible entities and entities outside that
angular range are untouched. -/
theorem despawn_out_of_view_spec (camera_info : Transform × Velocity)
    (players : List Entity) (entities : List (Entity × Bool × Transform)) :
    despawn_out_of_view [camera_info] players entities =
      .ok (entities.flatMap (spec_cull_outcome camera_info players)) := by
  unfold despawn_out_of_view
  rw [get_single_ok]
  dsimp only
  congr 1
  exact congrArg _ (funext fun e => cull_entity_eq camera_info players e)

end Gamejam

end
